import Mathlib

/-!
Verification development for the pump19 IRC golem command layer
(src/command.py).  The Python module is shallowly embedded: each handler
becomes a pure Lean function from its collaborator result to an `Outcome`
(the ordered trace of observable effects plus an optional uncaught Python
exception), the regular-expression command table is embedded via a small
backtracking matcher implementing the semantics of `re.fullmatch` (leftmost
alternative first, greedy quantifiers, named groups, unmatched optional
groups reported as `none` by `groupdict`), and the rate limiter and router
are embedded as explicit state-passing functions.
-/

/-- A Python exception kind, as far as the command module can raise or
catch one: `format(*None)` raises `TypeError`; subscripting a dict without
the key raises `KeyError`; subscripting a non-dict raises `TypeError`. -/
inductive PyErr where
  | typeError
  | keyError
deriving DecidableEq, Repr

/-- One observable effect of a handler or of the dispatcher: an outbound
IRC message (`client.privmsg`), a collaborator call (twitch, aiomc, songs),
or a log record. -/
inductive Event where
  | privmsg (target msg : String)
  | getBroadcasts (channelId limit : Nat)
  | getTopClips (channel : String) (limit : Nat)
  | getStatus (host : String) (port : Nat)
  | getLastfmInfo (user : Option String)
  | logInfo (msg : String)
  | logWarning (msg : String)
deriving DecidableEq, Repr

/-- True exactly for an outbound IRC message event. -/
def Event.isPrivmsg : Event → Bool
  | .privmsg _ _ => true
  | _ => false

/-- True exactly for a call to an external collaborator
(twitch / aiomc / songs). -/
def Event.isCollab : Event → Bool
  | .getBroadcasts _ _ => true
  | .getTopClips _ _ => true
  | .getStatus _ _ => true
  | .getLastfmInfo _ => true
  | _ => false

/-- The result of running one coroutine: the ordered trace of its effects
and, when it terminated by raising, the uncaught exception. -/
structure Outcome where
  events : List Event
  error : Option PyErr
deriving DecidableEq, Repr

/-! ## Regular expressions

A small regex AST covering exactly the constructs used by `CMD_REGEX`:
literal runs, `^`, `$`, alternation (left branch first), sequencing, the
greedy optional `(?: ...)?​` and `(...)?​`, named groups `(?P<n>...)`, and the
greedy one-or-more character-class repetitions `\w+` / `\d+`.  The matcher
returns all partial matches in the backtracking priority order of the
Python engine (leftmost alternative first, longest repetition first);
`fullmatch` keeps the first one that consumed the whole input, mirroring
`re.fullmatch`.  Character classes are Lean functions; `\w` is modelled on
its ASCII subset (letters, digits, underscore), which is exact for the
`last.fm` pattern (compiled with `re.ASCII`) and sound for every claim
below, none of which involves non-ASCII argument text. -/

/-- Captured groups of one match attempt: group name to captured run of
characters, most recent first. -/
abbrev Caps := List (String × List Char)

/-- Regex abstract syntax (only the constructs appearing in `CMD_REGEX`). -/
inductive Regex where
  | lit (cs : List Char)
  | many1 (p : Char → Bool)
  | bol
  | eol
  | seq (a b : Regex)
  | alt (a b : Regex)
  | opt (a : Regex)
  | group (n : String) (a : Regex)

/-- Remainders after consuming zero or more characters satisfying `p`,
most-consumed (greedy) first. -/
def many0Run (p : Char → Bool) : List Char → List (List Char)
  | [] => [[]]
  | c :: rest => if p c then many0Run p rest ++ [c :: rest] else [c :: rest]

/-- Remainders after consuming one or more characters satisfying `p`,
most-consumed (greedy) first. -/
def many1Run (p : Char → Bool) : List Char → List (List Char)
  | [] => []
  | c :: rest => if p c then many0Run p rest else []

/-- Does `$` match here?  Python `$` (without MULTILINE) matches at the end
of the input or just before a trailing newline. -/
def atEol (rem : List Char) : Bool :=
  rem.isEmpty || rem == [Char.ofNat 10]

/-- Run a regex against a suffix of the input (`total` is the length of
the whole input, so `^` can recognize position zero).  Returns every
(remaining input, captures) pair reachable, in backtracking priority
order. -/
def Regex.run (total : Nat) : Regex → List Char → Caps → List (List Char × Caps)
  | .lit cs, s, caps => if cs.isPrefixOf s then [(s.drop cs.length, caps)] else []
  | .many1 p, s, caps => (many1Run p s).map (fun rem => (rem, caps))
  | .bol, s, caps => if s.length = total then [(s, caps)] else []
  | .eol, s, caps => if atEol s then [(s, caps)] else []
  | .seq a b, s, caps => (Regex.run total a s caps).flatMap (fun x => Regex.run total b x.1 x.2)
  | .alt a b, s, caps => Regex.run total a s caps ++ Regex.run total b s caps
  | .opt a, s, caps => Regex.run total a s caps ++ [(s, caps)]
  | .group n a, s, caps =>
      (Regex.run total a s caps).map (fun x => (x.1, (n, s.take (s.length - x.1.length)) :: x.2))

/-- All named groups defined by a pattern, in textual order; `groupdict`
reports every one of them, matched or not. -/
def Regex.groupNames : Regex → List String
  | .seq a b => a.groupNames ++ b.groupNames
  | .alt a b => a.groupNames ++ b.groupNames
  | .opt a => a.groupNames
  | .group n a => n :: a.groupNames
  | .lit _ => []
  | .many1 _ => []
  | .bol => []
  | .eol => []

/-- `re.fullmatch` followed by `match.groupdict()`: the first complete
match in backtracking order, reported as the mapping from every group name
defined by the pattern to the captured text, or `none` for a group that
did not participate in the match (exactly what `groupdict` yields and what
`functools.partial(callback, **match.groupdict())` then passes on). -/
def Regex.fullmatch (r : Regex) (s : String) : Option (List (String × Option String)) :=
  ((Regex.run s.data.length r s.data []).find? (fun x => x.1.isEmpty)).map
    (fun x => r.groupNames.map (fun n => (n, (x.2.lookup n).map String.mk)))

/-- ASCII model of the `\w` character class (letters, digits, underscore). -/
def wordChar (c : Char) : Bool :=
  c.isAlphanum || c == '_'

/-- The `\d` character class. -/
def digitChar (c : Char) : Bool :=
  c.isDigit

/-- `re.compile("^vod$")` -/
def re_vod : Regex :=
  .seq .bol (.seq (.lit "vod".data) .eol)

/-- `re.compile("^clip$")` -/
def re_clip : Regex :=
  .seq .bol (.seq (.lit "clip".data) .eol)

/-- `re.compile("^(?:lrrmc|⛏️)(?: (?P<server>\w+))?$")` -/
def re_lrrmc : Regex :=
  .seq .bol (.seq (.alt (.lit "lrrmc".data) (.lit "⛏️".data))
    (.seq (.opt (.seq (.lit " ".data) (.group "server" (.many1 wordChar)))) .eol))

/-- `re.compile("^(?:last\.fm|🎵) (?P<user>\w+)$", re.ASCII)` -/
def re_lastfm : Regex :=
  .seq .bol (.seq (.alt (.lit "last.fm".data) (.lit "🎵".data))
    (.seq (.lit " ".data) (.seq (.group "user" (.many1 wordChar)) .eol)))

/-- `re.compile("^(?:roll|🎲)(?: (?P<count>\d+)?d(?P<sides>\d+))?")`
(note: the source pattern has no trailing `$`; `fullmatch` anchors the end
anyway). -/
def re_roll : Regex :=
  .seq .bol (.seq (.alt (.lit "roll".data) (.lit "🎲".data))
    (.opt (.seq (.lit " ".data)
      (.seq (.opt (.group "count" (.many1 digitChar)))
        (.seq (.lit "d".data) (.group "sides" (.many1 digitChar)))))))

/-- `re.compile("^bingo$")` -/
def re_bingo : Regex :=
  .seq .bol (.seq (.lit "bingo".data) .eol)

/-- `re.compile("^help|🚑$")` — by alternation precedence this is
`(^help)|(🚑$)`: the left branch anchors only the start, the right branch
anchors only the end. -/
def re_help : Regex :=
  .alt (.seq .bol (.lit "help".data)) (.seq (.lit "🚑".data) .eol)

/-- The `CMD_REGEX` table, in its (insertion-ordered) key order. -/
def CMD_REGEX : List (String × Regex) :=
  [("vod", re_vod), ("clip", re_clip), ("lrrmc", re_lrrmc), ("lastfm", re_lastfm),
   ("roll", re_roll), ("bingo", re_bingo), ("help", re_help)]

/-! ## Router

`CommandHandler.CommandRouter`: `routes` is a class-level list shared by
every instance; `add_route` appends; `get_route` walks the list in
registration order, returns `functools.partial(callback, **groupdict)` on
the first full match and `None` when nothing matches.  The handler type is
kept abstract (`H`); the partial application is represented as the pair of
the callback and the keyword arguments `groupdict` produced. -/

/-- `CommandRouter.get_route`: first full match in registration order,
paired with the extracted `groupdict` keyword arguments; `none` when no
binding matches. -/
def get_route {H : Type} : List (Regex × H) → String → Option (H × List (String × Option String))
  | [], _ => none
  | (regex, callback) :: rest, s =>
      match regex.fullmatch s with
      | some gd => some (callback, gd)
      | none => get_route rest s

/-- `CommandRouter.add_route` iterated over `CMD_REGEX` as
`CommandHandler.setup_routing` does: for every table entry, the bound
method `handle_command_<key>` of the constructing instance is appended to
the shared `routes` list.  (Every key of `CMD_REGEX` has a corresponding
`handle_command_` method, so the `getattr` guard never skips an entry.)
The bound method is represented by the pair (instance, key). -/
def setup_routing {A : Type} (inst : A) (routes : List (Regex × A × String)) :
    List (Regex × A × String) :=
  routes ++ CMD_REGEX.map (fun kr => (kr.2, inst, kr.1))

/-! ## Rate limiter -/

/-- The mutable state a `Limiter`-produced wrapper keeps:
`wrapper._spam_span` and `wrapper._spam_last`.  Times are modelled as
rationals (the event-loop clock is an arbitrary monotonic float). -/
structure LimiterState where
  spam_span : ℚ
  spam_last : ℚ
deriving DecidableEq, Repr

/-- The default span of the class-level `rate_limited = Limiter()`
decorator (`span=15`). -/
def rate_limited_span : ℚ := 15

/-- A freshly wrapped handler: `wrapper._spam_span = self.span` and
`wrapper._spam_last = 0.0`. -/
def limiter_init (span : ℚ) : LimiterState :=
  { spam_span := span, spam_last := 0 }

/-- One call of the wrapper produced by `Limiter.__call__`: if
`now - _spam_last > _spam_span` (strict), store `now` and run the wrapped
coroutine; otherwise leave the state alone and only log the suppression
warning.  `name` is `func.__name__`; `func` is the outcome the underlying
coroutine would produce when awaited now. -/
def limiter_call (st : LimiterState) (now : ℚ) (name : String) (func : Outcome) :
    LimiterState × Outcome :=
  if now - st.spam_last > st.spam_span then
    ({ spam_span := st.spam_span, spam_last := now }, func)
  else
    (st, { events := [Event.logWarning ("Suppressed call to " ++ name ++ ".")], error := none })

/-! ## Collaborator data and the command handlers -/

/-- `https://pump19.eu/bingo` -/
def BINGO_URL : String := "https://pump19.eu/bingo"

/-- `https://pump19.eu/commands` -/
def COMMAND_URL : String := "https://pump19.eu/commands"

/-- One entry of `LRRMC_SERVERS`. -/
structure ServerInfo where
  name : String
  host : String
  port : Nat
  info : String
deriving DecidableEq, Repr

/-- `LRRMC_SERVERS["vanilla"]`. -/
def vanillaServer : ServerInfo :=
  { name := "the LRR Vanilla Minecraft Server",
    host := "minecraft.darkmorford.net",
    port := 25565,
    info := "Check http://minecraft.darkmorford.net:8123/ for the dynamic map." }

/-- `LRRMC_SERVERS["snorsh"]`. -/
def snorshServer : ServerInfo :=
  { name := "the LRR Modded Minecraft Server",
    host := "ftb.darkmorford.net",
    port := 25565,
    info := "One up James on SnorshCraft." }

/-- The `LRRMC_SERVERS` dictionary. -/
def LRRMC_SERVERS : List (String × ServerInfo) :=
  [("vanilla", vanillaServer), ("snorsh", snorshServer)]

/-- `LRRMC_SERVERS.get(server, LRRMC_SERVERS["vanilla"])` where `server`
is the keyword argument (possibly Python `None`, which is never a key). -/
def lookupServer (server : Option String) : ServerInfo :=
  ((server.bind (fun k => LRRMC_SERVERS.lookup k)).getD vanillaServer)

/-- The deadline handed to `asyncio.wait_for` around `aiomc.get_status`
(`2.0` seconds). -/
def LRRMC_TIMEOUT : ℚ := 2

/-- A loosely structured value as returned by the `aiomc` status prober:
enough of the Python data model to give `status["players"]["online"]` its
real semantics (`KeyError` on a missing key, `TypeError` when subscripting
a non-dict). -/
inductive Val where
  | vint (n : Int)
  | vstr (s : String)
  | vnull
  | vdict (fields : List (String × Val))

/-- Python subscript `v[key]` with a string key. -/
def Val.getItem : Val → String → Except PyErr Val
  | .vdict fields, key =>
      match fields.lookup key with
      | some v => Except.ok v
      | none => Except.error PyErr.keyError
  | _, _ => Except.error PyErr.typeError

/-- Python truthiness of a `Val`. -/
def Val.truthy : Val → Bool
  | .vint n => n != 0
  | .vstr s => s != ""
  | .vnull => false
  | .vdict fields => !fields.isEmpty

/-- Python `str()` of a `Val`, as used by `str.format` interpolation.
Only the scalar cases matter to any claim; the dict rendering is
abbreviated. -/
def Val.pystr : Val → String
  | .vint n => toString n
  | .vstr s => s
  | .vnull => "None"
  | .vdict _ => "{...}"

/-- Truthiness of `status` after the `try/except asyncio.TimeoutError`
block: `None` (the timeout path) and falsy payloads take the `if not
status` branch. -/
def statusTruthy : Option Val → Bool
  | none => false
  | some v => v.truthy

/-- `status["players"]["online"]` and `status["players"]["max"]`, the two
subscript chains inside the handler try block (only `KeyError` and
`TypeError` can arise, and both are caught). -/
def playersOf (v : Val) : Except PyErr (Val × Val) := do
  let p ← v.getItem "players"
  let nowp ← p.getItem "online"
  let q ← v.getItem "players"
  let maxp ← q.getItem "max"
  pure (nowp, maxp)

/-- Python `str()` of a possibly-`None` string, as `str.format`
interpolates a keyword argument that may be `None`. -/
def optStr : Option String → String
  | none => "None"
  | some s => s

/-- Python truthiness of a possibly-`None` string (`not track`):
`None` and the empty string are falsy. -/
def optTruthy : Option String → Bool
  | none => false
  | some s => s != ""

/-- The scrobble info dictionary returned by `songs.get_lastfm_info`,
projected through the four `info.get(...)` reads the handler performs. -/
structure LastfmInfo where
  name : Option String
  live : Bool
  track : Option String
  artist : Option String
deriving DecidableEq, Repr

/-- `handle_command_vod`: ask twitch for one broadcast; `next(broadcasts,
None)` takes the first of the lazy sequence.  When the sequence is empty,
`"...".format(*None)` raises `TypeError` before any message is sent. -/
def handle_command_vod (broadcasts : List (String × String × String))
    (target nick : String) : Outcome :=
  let evs := [Event.getBroadcasts 27132299 1]
  match broadcasts.head? with
  | none => { events := evs, error := some PyErr.typeError }
  | some (title, ident, status) =>
      { events := evs ++
          [Event.privmsg target ("Latest Broadcast: " ++ title ++ " [" ++ status ++ "] | " ++ ident)],
        error := none }

/-- `handle_command_clip`: ask twitch for one top clip; as for `vod`, an
empty sequence makes `format(*None)` raise `TypeError`. -/
def handle_command_clip (clips : List (String × String × String))
    (target nick : String) : Outcome :=
  let evs := [Event.getTopClips "loadingreadyrun" 1]
  match clips.head? with
  | none => { events := evs, error := some PyErr.typeError }
  | some (title, ident, views) =>
      { events := evs ++
          [Event.privmsg target ("Top Clip: " ++ title ++ " [" ++ views ++ "] | https://clips.twitch.tv/" ++ ident)],
        error := none }

/-- `base_msg.format(**server, status=...)`. -/
def lrrmcMsg (srv : ServerInfo) (status : String) : String :=
  "Join " ++ srv.name ++ " on " ++ srv.host ++ ":" ++ toString srv.port ++ "! " ++
    srv.info ++ " Current Status: " ++ status

/-- `handle_command_lrrmc`: resolve the server alias (falling back to
vanilla), probe it under the 2-second deadline (`status?` is the value of
`status` after the `try/except asyncio.TimeoutError`: `none` on timeout),
and always send the informational message; nested player counts degrade to
`"?"` on `KeyError`/`TypeError`. -/
def handle_command_lrrmc (status? : Option Val) (target nick : String)
    (server : Option String := some "vanilla") : Outcome :=
  let srv := lookupServer server
  let evs := [Event.getStatus srv.host srv.port]
  if !statusTruthy status? then
    { events := evs ++ [Event.privmsg target (lrrmcMsg srv "Unknown")], error := none }
  else
    let nowmax : String × String :=
      match status? with
      | none => ("?", "?")
      | some v =>
          match playersOf v with
          | Except.ok (nowp, maxp) => (nowp.pystr, maxp.pystr)
          | Except.error _ => ("?", "?")
    { events := evs ++
        [Event.privmsg target (lrrmcMsg srv ("Online - " ++ nowmax.1 ++ "/" ++ nowmax.2 ++ " players"))],
      error := none }

/-- `handle_command_lastfm`: two-stage lookup with distinct failure
messages; `tempus` depends on the liveness flag. -/
def handle_command_lastfm (info? : Option LastfmInfo) (target nick : String)
    (user : Option String := none) : Outcome :=
  let evs := [Event.getLastfmInfo user]
  match info? with
  | none =>
      { events := evs ++
          [Event.privmsg target ("Cannot query last.fm user information for " ++ optStr user ++ ".")],
        error := none }
  | some info =>
      if !optTruthy info.track && !optTruthy info.artist then
        { events := evs ++
            [Event.privmsg target ("Cannot query most recently played track for " ++ optStr info.name ++ ".")],
          error := none }
      else
        let tempus := if info.live then "is listening" else "last listened"
        { events := evs ++
            [Event.privmsg target (optStr info.name ++ " " ++ tempus ++ " to \"" ++
              optStr info.track ++ "\" by " ++ optStr info.artist)],
          error := none }

/-- `handle_command_roll`: parsed arguments are accepted and discarded;
the reply is a fixed refusal. -/
def handle_command_roll (target nick : String)
    (count : Option String := none) (sides : Option String := none) : Outcome :=
  { events := [Event.privmsg target "THIS is why we can\x27t have nice things!"], error := none }

/-- `handle_command_bingo`: fixed templated message. -/
def handle_command_bingo (target nick : String) : Outcome :=
  { events := [Event.privmsg target
      ("Check out " ++ BINGO_URL ++ " for our interactive Trope Bingo cards.")],
    error := none }

/-- `handle_command_help`: fixed templated message. -/
def handle_command_help (target nick : String) : Outcome :=
  { events := [Event.privmsg target
      ("Pump19 is run by Twisted Pear. Check " ++ COMMAND_URL ++ " for a list of supported commands.")],
    error := none }

/-! ## Dispatcher -/

/-- `message.startswith(self.prefix)` where the stored value is
`tuple(prefix)` — a tuple of single characters, so this asks whether the
first character of the message is one of them. -/
def startsWithAny (sigils : List Char) (message : String) : Bool :=
  match message.data with
  | [] => false
  | c :: _ => sigils.contains c

/-- `CommandHandler.handle_privmsg` (the PRIVMSG dispatcher), literally:
return silently unless the message starts with a configured command
character and has at least two characters; strip the first character; log;
redirect the reply target to the sender on a private query; resolve the
command through the router; await the resolved callable.  There is no
try/except around the invocation: the trace of the invoked handler and its
uncaught exception, if any, become the trace and outcome of the dispatch
itself.  `routes` carries abstract handler tokens and `invoke` gives the
semantics of calling `functools.partial(callback, **groupdict)` with
`(target, nick)`. -/
def handle_privmsg {H : Type}
    (invoke : H → List (String × Option String) → String → String → Outcome)
    (botNick : String) (sigils : List Char) (routes : List (Regex × H))
    (nick target message : String) : Outcome :=
  if ¬startsWithAny sigils message ∨ message.length < 2 then
    { events := [], error := none }
  else
    let cmd := message.drop 1
    let logEv := Event.logInfo ("Got command \"" ++ cmd ++ "\" from " ++ nick ++ ".")
    let target1 := if target = botNick then nick else target
    match get_route routes cmd with
    | some (h, gd) =>
        let out := invoke h gd target1 nick
        { events := logEv :: out.events, error := out.error }
    | none => { events := [logEv], error := none }

/-- The collaborator world a dispatch runs against: what each external
call would return if made now. -/
structure World where
  broadcasts : List (String × String × String)
  clips : List (String × String × String)
  mcStatus : Option Val
  lastfm : Option LastfmInfo

/-- The route table one `CommandHandler` instance registers, with the
bound method named by its `CMD_REGEX` key. -/
def cmdRoutes : List (Regex × String) :=
  CMD_REGEX.map (fun kr => (kr.2, kr.1))

/-- Keyword-argument extraction from the passed `groupdict`: the value
bound to `name` (`none` both for an unmatched group reported as Python
`None` and for a name the pattern does not define, which cannot occur for
the handlers below). -/
def getArg (gd : List (String × Option String)) (name : String) : Option String :=
  (gd.lookup name).getD none

/-- Calling the bound method named `key` with the keyword arguments of the
groupdict, against a given collaborator world.  This is the semantics of
the `functools.partial` objects stored by the router. -/
def invokeHandler (w : World) (key : String) (gd : List (String × Option String))
    (target nick : String) : Outcome :=
  match key with
  | "vod" => handle_command_vod w.broadcasts target nick
  | "clip" => handle_command_clip w.clips target nick
  | "lrrmc" => handle_command_lrrmc w.mcStatus target nick (getArg gd "server")
  | "lastfm" => handle_command_lastfm w.lastfm target nick (getArg gd "user")
  | "roll" => handle_command_roll target nick (getArg gd "count") (getArg gd "sides")
  | "bingo" => handle_command_bingo target nick
  | "help" => handle_command_help target nick
  | _ => { events := [], error := none }

/-- One full PRIVMSG dispatch through the real route table and the real
handlers (a permitted invocation: the rate-limit gate, modelled separately
by `limiter_call`, passes a permitted call through unchanged). -/
def dispatch (w : World) (botNick : String) (sigils : List Char)
    (nick target message : String) : Outcome :=
  handle_privmsg (invokeHandler w) botNick sigils cmdRoutes nick target message

/-! ## Claim theorems -/

/-- Claim C2 counterexample: the limiter gate is strict.  With interval 15
and the previous permitted invocation at time 100, an invocation at time
115 — elapsed time exactly equal to the interval, which the claim says is
permitted — is suppressed: the underlying handler outcome is discarded, no
outbound message or collaborator call happens, and the stored timestamp is
not updated. -/
theorem limiter_gate_at_exact_interval :
    limiter_call { spam_span := 15, spam_last := 100 } 115 "handle_command_vod"
        { events := [Event.privmsg "#desertbus" "msg"], error := none } =
      ({ spam_span := 15, spam_last := 100 },
       { events := [Event.logWarning "Suppressed call to handle_command_vod."],
         error := none }) := by
  unfold limiter_call
  rw [if_neg (by norm_num)]
  rfl

/-- Claim C2 (amended): for a wrapped handler with minimum interval I and
previous permitted invocation at `spam_last`, an invocation with elapsed
time at most I (in particular any t with 0 < t smaller than I, and also t
exactly I) is suppressed entirely — the state is unchanged, the resulting
trace holds no outbound message and no collaborator call, and no error is
reported — while an invocation with elapsed time strictly greater than I
runs the underlying handler and updates the stored timestamp to the
current time.  (The code gate is `now - _spam_last > _spam_span`, strict,
so elapsed = I does not permit.) -/
theorem limiter_min_interval_gate (st : LimiterState) (now : ℚ) (name : String)
    (func : Outcome) :
    (now - st.spam_last ≤ st.spam_span →
      (limiter_call st now name func).1 = st ∧
      (limiter_call st now name func).2.events.all
        (fun e => !e.isPrivmsg && !e.isCollab) = true ∧
      (limiter_call st now name func).2.error = none) ∧
    (st.spam_span < now - st.spam_last →
      limiter_call st now name func =
        ({ spam_span := st.spam_span, spam_last := now }, func)) := by
  constructor
  · intro h
    have hgate : ¬(now - st.spam_last > st.spam_span) := not_lt.mpr h
    unfold limiter_call
    rw [if_neg hgate]
    exact ⟨rfl, rfl, rfl⟩
  · intro h
    unfold limiter_call
    rw [if_pos h]

/-- Witness for `limiter_min_interval_gate` at concrete inputs: elapsed 10
of interval 15 suppresses, elapsed 20 permits and stores the new time. -/
theorem limiter_min_interval_gate_witness :
    (limiter_call { spam_span := 15, spam_last := 100 } 110 "f"
        { events := [], error := none }).1 = { spam_span := 15, spam_last := 100 } ∧
    limiter_call { spam_span := 15, spam_last := 100 } 120 "f"
        { events := [], error := none } =
      ({ spam_span := 15, spam_last := 120 }, { events := [], error := none }) :=
  ⟨((limiter_min_interval_gate { spam_span := 15, spam_last := 100 } 110 "f"
      { events := [], error := none }).1 (by norm_num)).1,
   (limiter_min_interval_gate { spam_span := 15, spam_last := 100 } 120 "f"
      { events := [], error := none }).2 (by norm_num)⟩

/-- Claim C8 counterexample: a freshly wrapped handler has
`_spam_last = 0.0`, which does not guarantee that the first invocation
proceeds for every clock value: with the default interval 15, a first
invocation at clock value 10 is suppressed (the underlying handler is not
called). -/
theorem limiter_first_call_suppressed_at_small_clock :
    limiter_call (limiter_init rate_limited_span) 10 "handle_command_vod"
        { events := [Event.privmsg "#desertbus" "msg"], error := none } =
      (limiter_init rate_limited_span,
       { events := [Event.logWarning "Suppressed call to handle_command_vod."],
         error := none }) := by
  unfold limiter_call
  rw [if_neg (by norm_num [limiter_init, rate_limited_span])]
  rfl

/-- Claim C8 (amended): a freshly wrapped handler stores timestamp `0.0`
and default interval 15, so its first invocation proceeds exactly when the
clock reads strictly more than the interval; for clock values not above
the interval the first call is suppressed (underlying handler not
called). -/
theorem limiter_first_call_gate (span now : ℚ) (name : String) (func : Outcome) :
    rate_limited_span = 15 ∧
    (limiter_init span).spam_last = 0 ∧
    (span < now →
      limiter_call (limiter_init span) now name func =
        ({ spam_span := span, spam_last := now }, func)) ∧
    (now ≤ span →
      (limiter_call (limiter_init span) now name func).1 = limiter_init span ∧
      (limiter_call (limiter_init span) now name func).2.events.all
        (fun e => !e.isPrivmsg && !e.isCollab) = true) := by
  refine ⟨rfl, rfl, ?_, ?_⟩
  · intro h
    have hgate : (limiter_init span).spam_span < now - (limiter_init span).spam_last := by
      simp only [limiter_init]
      simpa using h
    unfold limiter_call
    rw [if_pos hgate]
    rfl
  · intro h
    have hgate : ¬((limiter_init span).spam_span < now - (limiter_init span).spam_last) := by
      simp only [limiter_init]
      simpa using not_lt.mpr h
    unfold limiter_call
    rw [if_neg hgate]
    exact ⟨rfl, rfl⟩

/-- Witness for `limiter_first_call_gate`: first call at clock 16 with the
default interval proceeds; first call at clock 15 is suppressed. -/
theorem limiter_first_call_gate_witness :
    limiter_call (limiter_init 15) 16 "f" { events := [], error := none } =
      ({ spam_span := 15, spam_last := 16 }, { events := [], error := none }) ∧
    (limiter_call (limiter_init 15) 15 "f" { events := [], error := none }).1 =
      limiter_init 15 :=
  ⟨(limiter_first_call_gate 15 16 "f" { events := [], error := none }).2.2.1 (by norm_num),
   ((limiter_first_call_gate 15 15 "f" { events := [], error := none }).2.2.2 (by norm_num)).1⟩

/-- Claim C4: when the twitch collaborator yields no item, `next(..., None)`
leaves `None` and `"...".format(*None)` raises `TypeError`: both the vod
and the clip handler crash after their collaborator call, sending no
message at all — there is no best-effort or unavailable message. -/
theorem vod_clip_crash_on_empty (target nick : String) :
    (handle_command_vod [] target nick).error = some PyErr.typeError ∧
    (handle_command_vod [] target nick).events = [Event.getBroadcasts 27132299 1] ∧
    (handle_command_clip [] target nick).error = some PyErr.typeError ∧
    (handle_command_clip [] target nick).events = [Event.getTopClips "loadingreadyrun" 1] :=
  ⟨rfl, rfl, rfl, rfl⟩

/-- Claim C7 counterexample: for the bare `lrrmc` command the router does
not supply the handler declared default for the missing capture — the
`groupdict` it passes maps `server` to the absence marker `None`, which is
not the declared default `"vanilla"`. -/
theorem optional_group_yields_none_marker :
    (get_route cmdRoutes "lrrmc").map (fun r => r.2) = some [("server", none)] ∧
    (some [(("server" : String), (none : Option String))] ≠
      some [("server", some "vanilla")]) := by
  exact ⟨by decide, by decide⟩

/-- Claim C7 (amended): a command text omitting an optional group still
matches and is not an error, but the handler is invoked with `None` for
each missing capture (the `groupdict` marker overrides the declared
defaults).  A bare `lrrmc` nevertheless behaves exactly as if the server
argument were `"vanilla"`, because the handler maps `None` to the vanilla
entry through the dictionary-get fallback; a bare `roll` still yields the
fixed refusal message and no error. -/
theorem optional_group_none_still_defaults (status? : Option Val) (w : World)
    (target nick : String) :
    get_route cmdRoutes "lrrmc" = some ("lrrmc", [("server", none)]) ∧
    get_route cmdRoutes "roll" = some ("roll", [("count", none), ("sides", none)]) ∧
    handle_command_lrrmc status? target nick none =
      handle_command_lrrmc status? target nick (some "vanilla") ∧
    invokeHandler w "roll" [("count", none), ("sides", none)] target nick =
      { events := [Event.privmsg target "THIS is why we can\x27t have nice things!"],
        error := none } := by
  refine ⟨by decide, by decide, ?_, rfl⟩
  rfl

/-- Claim C5: the last.fm handler.  Collaborator returns nothing → one
message "Cannot query last.fm user information for u." and nothing else;
a resolvable name without track and artist → one message "Cannot query
most recently played track for n."; full success with the liveness flag
set → the message is exactly the name, "is listening", the quoted track
and the artist; with the flag clear the verb phrase is "last listened". -/
theorem lastfm_two_stage (target nick u n t a : String) (info : LastfmInfo) :
    (handle_command_lastfm none target nick (some u) =
      { events := [Event.getLastfmInfo (some u),
          Event.privmsg target ("Cannot query last.fm user information for " ++ u ++ ".")],
        error := none }) ∧
    (info.name = some n → info.track = none → info.artist = none →
      handle_command_lastfm (some info) target nick (some u) =
        { events := [Event.getLastfmInfo (some u),
            Event.privmsg target ("Cannot query most recently played track for " ++ n ++ ".")],
          error := none }) ∧
    (t ≠ "" →
      handle_command_lastfm
          (some { name := some n, live := true, track := some t, artist := some a })
          target nick (some u) =
        { events := [Event.getLastfmInfo (some u),
            Event.privmsg target (n ++ " is listening to \"" ++ t ++ "\" by " ++ a)],
          error := none }) ∧
    (t ≠ "" →
      handle_command_lastfm
          (some { name := some n, live := false, track := some t, artist := some a })
          target nick (some u) =
        { events := [Event.getLastfmInfo (some u),
            Event.privmsg target (n ++ " last listened to \"" ++ t ++ "\" by " ++ a)],
          error := none }) := by
  refine ⟨rfl, ?_, ?_, ?_⟩
  · intro hn ht ha
    simp [handle_command_lastfm, hn, ht, ha, optTruthy, optStr]
  · intro ht
    simp only [handle_command_lastfm, optTruthy, optStr, ht]
    simp [ht, String.ext_iff, String.data_append, List.append_assoc]
  · intro ht
    simp only [handle_command_lastfm, optTruthy, optStr, ht]
    simp [ht, String.ext_iff, String.data_append, List.append_assoc]

/-- Witness for `lastfm_two_stage` at concrete inputs, matching the spec
example: `{name: "X", live: true, track: "T", artist: "A"}` yields exactly
the message `X is listening to "T" by A`. -/
theorem lastfm_two_stage_witness :
    handle_command_lastfm
        (some { name := some "X", live := true, track := some "T", artist := some "A" })
        "#desertbus" "alice" (some "bob") =
      { events := [Event.getLastfmInfo (some "bob"),
          Event.privmsg "#desertbus" "X is listening to \"T\" by A"],
        error := none } ∧
    handle_command_lastfm
        (some { name := some "X", live := false, track := none, artist := none })
        "#desertbus" "alice" (some "bob") =
      { events := [Event.getLastfmInfo (some "bob"),
          Event.privmsg "#desertbus" "Cannot query most recently played track for X."],
        error := none } := by
  refine ⟨?_, ?_⟩
  · have h := (lastfm_two_stage "#desertbus" "alice" "bob" "X" "T" "A"
      { name := some "X", live := true, track := some "T", artist := some "A" }).2.2.1
      (by decide)
    simpa using h
  · have h := (lastfm_two_stage "#desertbus" "alice" "bob" "X" "T" "A"
      { name := some "X", live := false, track := none, artist := none }).2.1
      rfl rfl rfl
    simpa using h

/-- Claim C6: the lrrmc handler probes under the fixed 2-second deadline;
on timeout (`status` left `None`) it still sends the one informational
message naming the server, its host, its port and its info text with
status "Unknown" and raises nothing; a truthy status whose players /
online / max extraction raises `KeyError` or `TypeError` degrades both
counts to the "?" placeholder instead of erroring. -/
theorem lrrmc_probe_degrades (target nick : String) (sArg : Option String) (v : Val)
    (e : PyErr) :
    LRRMC_TIMEOUT = 2 ∧
    (handle_command_lrrmc none target nick sArg =
      { events := [Event.getStatus (lookupServer sArg).host (lookupServer sArg).port,
          Event.privmsg target (lrrmcMsg (lookupServer sArg) "Unknown")],
        error := none }) ∧
    (statusTruthy (some v) = true → playersOf v = Except.error e →
      handle_command_lrrmc (some v) target nick sArg =
        { events := [Event.getStatus (lookupServer sArg).host (lookupServer sArg).port,
            Event.privmsg target (lrrmcMsg (lookupServer sArg) "Online - ?/? players")],
          error := none }) := by
  refine ⟨rfl, rfl, ?_⟩
  intro h1 h2
  have hv : v.truthy = true := by simpa [statusTruthy] using h1
  simp [handle_command_lrrmc, statusTruthy, hv, h2]

/-- Witness for `lrrmc_probe_degrades`: a truthy status dictionary with no
"players" key raises `KeyError` inside the try block and both counts
degrade to "?" in the message for the vanilla server. -/
theorem lrrmc_probe_degrades_witness :
    handle_command_lrrmc (some (Val.vdict [("version", Val.vstr "1.12")]))
        "#desertbus" "alice" none =
      { events := [Event.getStatus vanillaServer.host vanillaServer.port,
          Event.privmsg "#desertbus" (lrrmcMsg vanillaServer "Online - ?/? players")],
        error := none } := by
  have h := (lrrmc_probe_degrades "#desertbus" "alice" none
      (Val.vdict [("version", Val.vstr "1.12")]) PyErr.keyError).2.2 rfl rfl
  simpa [lookupServer] using h

/-- Claim C1 counterexample: a handler exception is not caught inside
`handle_privmsg`.  Dispatching `&vod` while the twitch collaborator yields
no broadcast makes the vod handler raise `TypeError`, and the dispatch of
the event terminates with that fault propagating out of `handle_privmsg`
(no catch, no swallow). -/
theorem dispatcher_propagates_vod_fault :
    (dispatch { broadcasts := [], clips := [], mcStatus := none, lastfm := none }
        "pump19" [ '&' ] "alice" "#desertbus" "&vod").error = some PyErr.typeError := by
  decide

/-- Claim C1 (amended): `handle_privmsg` has no try/except around the
handler invocation.  For every message event that resolves to a handler,
the dispatch outcome carries exactly the uncaught exception of the invoked
handler (none when the handler completes, the fault itself when it
raises); any containment of that fault happens in the client event
machinery outside this module. -/
theorem privmsg_fault_propagation (w : World) (botNick : String) (sigils : List Char)
    (nick target message : String) (key : String) (gd : List (String × Option String))
    (hpre : startsWithAny sigils message = true) (hlen : ¬message.length < 2)
    (hroute : get_route cmdRoutes (message.drop 1) = some (key, gd)) :
    (dispatch w botNick sigils nick target message).error =
      (invokeHandler w key gd (if target = botNick then nick else target) nick).error := by
  unfold dispatch handle_privmsg
  rw [if_neg (by simp [hpre, hlen])]
  simp only [hroute]

/-- Witness for `privmsg_fault_propagation`: dispatching `&clip` with no
clip available propagates the clip handler `TypeError` to the dispatch
outcome. -/
theorem privmsg_fault_propagation_witness :
    (dispatch { broadcasts := [], clips := [], mcStatus := none, lastfm := none }
        "pump19" [ '&' ] "alice" "#desertbus" "&clip").error =
      (invokeHandler { broadcasts := [], clips := [], mcStatus := none, lastfm := none }
        "clip" [] (if "#desertbus" = "pump19" then "alice" else "#desertbus") "alice").error :=
  privmsg_fault_propagation
    { broadcasts := [], clips := [], mcStatus := none, lastfm := none }
    "pump19" [ '&' ] "alice" "#desertbus" "&clip" "clip" []
    (by decide) (by decide) (by decide)

/-- Claim C3: the router walks the bindings in registration order and
returns the first full match with its extracted arguments, so when several
registered patterns match the same text the earliest-registered binding
wins whatever comes after it; when no binding matches it returns `none`
(not an error), and the dispatcher then produces no outbound message. -/
theorem router_first_match {H : Type} (pre post : List (Regex × H)) (r : Regex) (hcb : H)
    (s : String) (gd : List (String × Option String)) (w : World) (botNick : String)
    (sigils : List Char) (nick target message : String) :
    ((∀ p ∈ pre, p.1.fullmatch s = none) → r.fullmatch s = some gd →
      get_route (pre ++ (r, hcb) :: post) s = some (hcb, gd)) ∧
    ((∀ p ∈ pre, p.1.fullmatch s = none) → get_route pre s = none) ∧
    (get_route cmdRoutes (message.drop 1) = none →
      (handle_privmsg (invokeHandler w) botNick sigils cmdRoutes nick target message).events.all
        (fun e => !e.isPrivmsg) = true) := by
  refine ⟨?_, ?_, ?_⟩
  · intro hpre hr
    revert hpre
    induction pre with
    | nil =>
        intro _
        simp [get_route, hr]
    | cons q rest ih =>
        intro hpre
        obtain ⟨qr, qc⟩ := q
        have hq : qr.fullmatch s = none := hpre (qr, qc) (List.mem_cons_self _ _)
        have hrest : ∀ p ∈ rest, p.1.fullmatch s = none :=
          fun p hp => hpre p (List.mem_cons_of_mem _ hp)
        simp only [List.cons_append, get_route, hq]
        exact ih hrest
  · intro hpre
    revert hpre
    induction pre with
    | nil => intro _; rfl
    | cons q rest ih =>
        intro hpre
        obtain ⟨qr, qc⟩ := q
        have hq : qr.fullmatch s = none := hpre (qr, qc) (List.mem_cons_self _ _)
        have hrest : ∀ p ∈ rest, p.1.fullmatch s = none :=
          fun p hp => hpre p (List.mem_cons_of_mem _ hp)
        simp only [get_route, hq]
        exact ih hrest
  · intro hroute
    unfold handle_privmsg
    by_cases hif : ¬startsWithAny sigils message ∨ message.length < 2
    · rw [if_pos hif]
      rfl
    · rw [if_neg hif]
      simp only [hroute]
      rfl

/-- Witness for `router_first_match`: with the vod binding registered
before a clip binding, the text that only the later binding matches is
routed to it; a list whose single pattern rejects the text yields `none`;
a dispatch of an unrecognized command emits no outbound message. -/
theorem router_first_match_witness :
    get_route ([(re_vod, "first")] ++ (re_clip, "second") :: []) "clip" =
      some ("second", []) ∧
    get_route [(re_vod, "first")] "clip" = none ∧
    (handle_privmsg
        (invokeHandler { broadcasts := [], clips := [], mcStatus := none, lastfm := none })
        "pump19" [ '&' ] cmdRoutes "alice" "#desertbus" "&nope").events.all
      (fun e => !e.isPrivmsg) = true :=
  ⟨(router_first_match [(re_vod, "first")] [] re_clip "second" "clip" []
      { broadcasts := [], clips := [], mcStatus := none, lastfm := none }
      "pump19" [ '&' ] "alice" "#desertbus" "&nope").1 (by decide) (by decide),
   (router_first_match [(re_vod, "first")] [] re_clip "second" "clip" []
      { broadcasts := [], clips := [], mcStatus := none, lastfm := none }
      "pump19" [ '&' ] "alice" "#desertbus" "&nope").2.1 (by decide),
   (router_first_match [(re_vod, "first")] [] re_clip "second" "clip" []
      { broadcasts := [], clips := [], mcStatus := none, lastfm := none }
      "pump19" [ '&' ] "alice" "#desertbus" "&nope").2.2 (by decide)⟩

/-- A literal consumes the whole remaining input exactly when the input is
that literal: `isPrefixOf` together with an empty remainder after dropping
the literal length characterizes equality. -/
theorem lit_fullconsume (w : List Char) : ∀ (l : List Char),
    (w.isPrefixOf l = true ∧ l.drop w.length = []) ↔ l = w := by
  induction w with
  | nil =>
      intro l
      simp [List.isPrefixOf]
  | cons c w ih =>
      intro l
      cases l with
      | nil => simp [List.isPrefixOf]
      | cons d l' =>
          simp only [List.isPrefixOf, List.length_cons, List.drop_succ_cons,
            Bool.and_eq_true, beq_iff_eq, List.cons.injEq]
          constructor
          · rintro ⟨⟨h1, h2⟩, h3⟩
            exact ⟨h1.symm, (ih l').mp ⟨h2, h3⟩⟩
          · rintro ⟨h1, h2⟩
            have hc := (ih l').mpr h2
            exact ⟨⟨h1.symm, hc.1⟩, hc.2⟩

/-- Completion of the `^lit` branch of the help pattern: some result of
the branch has empty remainder exactly when the input equals the
literal. -/
theorem exists_lit_complete (w l : List Char) :
    (∃ x, x ∈ (if w.isPrefixOf l then [(l.drop w.length, ([] : Caps))] else []) ∧
      x.1.isEmpty = true) ↔ l = w := by
  split
  · rename_i h
    simp only [List.mem_singleton, List.isEmpty_iff]
    constructor
    · rintro ⟨x, rfl, hx⟩
      exact (lit_fullconsume w l).mp ⟨h, hx⟩
    · intro hl
      exact ⟨(l.drop w.length, []), rfl, ((lit_fullconsume w l).mpr hl).2⟩
  · rename_i h
    simp only [List.not_mem_nil, false_and, exists_false, false_iff]
    intro hl
    exact h ((lit_fullconsume w l).mpr hl).1

/-- Completion of the `lit$` branch of the help pattern: some result of
the branch has empty remainder exactly when the input equals the literal
(`$` is zero-width, so a remainder left before a trailing newline still
fails the full-consumption requirement of `fullmatch`). -/
theorem exists_lit_eol_complete (w l : List Char) :
    (∃ x, x ∈ ((if w.isPrefixOf l then [(l.drop w.length, ([] : Caps))] else []).flatMap
        (fun x => if atEol x.1 then [(x.1, x.2)] else [])) ∧ x.1.isEmpty = true) ↔
      l = w := by
  split
  · rename_i h
    simp only [List.flatMap_cons, List.flatMap_nil, List.append_nil]
    split
    · simp only [List.mem_singleton, List.isEmpty_iff]
      constructor
      · rintro ⟨x, rfl, hx⟩
        exact (lit_fullconsume w l).mp ⟨h, hx⟩
      · intro hl
        exact ⟨(l.drop w.length, []), rfl, ((lit_fullconsume w l).mpr hl).2⟩
    · rename_i h3
      simp only [List.not_mem_nil, false_and, exists_false, false_iff]
      intro hl
      have hd : l.drop w.length = [] := ((lit_fullconsume w l).mpr hl).2
      exact h3 (by simp [atEol, hd])
  · rename_i h
    simp only [List.flatMap_nil, List.not_mem_nil, false_and, exists_false, false_iff]
    intro hl
    exact h ((lit_fullconsume w l).mpr hl).1

/-- Claim C9 counterexample: the router does not route every text starting
with "help" to the help handler.  Under `fullmatch`, "helpme" matches no
binding at all (in particular not the help pattern), and "me🚑", ending in
the emoji, does not match either. -/
theorem help_quirk_neutralized_by_fullmatch :
    re_help.fullmatch "helpme" = none ∧
    get_route cmdRoutes "helpme" = none ∧
    re_help.fullmatch "me🚑" = none := by
  exact ⟨by decide, by decide, by decide⟩

/-- Claim C9 (amended): because the router matches with `re.fullmatch`,
which demands that the entire command text be consumed, the
badly-parenthesized help pattern `^help|🚑$` nevertheless matches exactly
the two texts "help" and "🚑" — the alternation-precedence quirk is
neutralized, and texts merely starting with "help" or merely ending in the
emoji are not routed to the help handler. -/
theorem help_fullmatch_iff (s : String) :
    (re_help.fullmatch s).isSome = true ↔ (s = "help" ∨ s = "🚑") := by
  obtain ⟨l⟩ := s
  have hdata : ∀ t : String, (String.mk l = t) ↔ l = t.data := by
    intro t
    cases t
    exact ⟨fun h => congrArg String.data h, fun h => congrArg String.mk h⟩
  rw [hdata "help", hdata "🚑"]
  unfold Regex.fullmatch
  rw [Option.isSome_map', List.find?_isSome]
  show (∃ x, x ∈ Regex.run l.length re_help l [] ∧ x.1.isEmpty = true) ↔ _
  simp only [re_help, Regex.run, if_true, List.flatMap_cons, List.flatMap_nil,
    List.append_nil, List.mem_append, or_and_right, exists_or]
  exact or_congr (exists_lit_complete _ l) (exists_lit_eol_complete _ l)

/-- `get_route` over a concatenation: the earlier block is consulted
first and the later block only when the earlier one has no match. -/
theorem get_route_append {H : Type} (l1 l2 : List (Regex × H)) (s : String) :
    get_route (l1 ++ l2) s =
      (match get_route l1 s with
        | some x => some x
        | none => get_route l2 s) := by
  induction l1 with
  | nil => rfl
  | cons q rest ih =>
      obtain ⟨qr, qc⟩ := q
      simp only [List.cons_append, get_route]
      cases hq : qr.fullmatch s with
      | some gd => rfl
      | none => exact ih

/-- The handler returned by `get_route` is one of the registered
callbacks. -/
theorem get_route_mem {H : Type} (routes : List (Regex × H)) (s : String) (h : H)
    (gd : List (String × Option String)) :
    get_route routes s = some (h, gd) → ∃ r, (r, h) ∈ routes := by
  induction routes with
  | nil => intro hx; cases hx
  | cons q rest ih =>
      obtain ⟨qr, qc⟩ := q
      simp only [get_route]
      cases hq : qr.fullmatch s with
      | some gd0 =>
          intro hx
          simp only [Option.some.injEq, Prod.mk.injEq] at hx
          exact ⟨qr, by rw [← hx.1]; exact List.mem_cons_self _ _⟩
      | none =>
          intro hx
          obtain ⟨r, hr⟩ := ih hx
          exact ⟨r, List.mem_cons_of_mem _ hr⟩

/-- Whether some binding of a mapped table matches depends only on the
patterns, not on the attached callbacks: if a table built from `L` with
one tagging function has no match, the same table built with another
tagging function has no match either. -/
theorem get_route_retag_none {A B : Type} (L : List (String × Regex))
    (f : String × Regex → A) (g : String × Regex → B) (s : String) :
    get_route (L.map (fun kr => (kr.2, f kr))) s = none →
    get_route (L.map (fun kr => (kr.2, g kr))) s = none := by
  induction L with
  | nil => intro _; rfl
  | cons kr rest ih =>
      simp only [List.map_cons, get_route]
      cases hq : kr.2.fullmatch s with
      | some gd => simp
      | none => exact ih

/-- Claim C10: `CommandRouter.routes` is a class attribute, so both
constructions append to one shared list.  After a second
`CommandHandler` is constructed, every command key occurs twice in the
shared routes, and for every command string the router resolves, the
handler it returns belongs to the first-constructed instance. -/
theorem shared_router_first_instance_wins (i1 i2 : ℕ) (s : String) (hcb : ℕ × String)
    (gd : List (String × Option String)) :
    (∀ key ∈ CMD_REGEX.map (fun kr => kr.1),
      ((setup_routing i2 (setup_routing i1 ([] : List (Regex × ℕ × String)))).filter
        (fun e => e.2.2 == key)).length = 2) ∧
    (get_route (setup_routing i2 (setup_routing i1 [])) s = some (hcb, gd) →
      hcb.1 = i1) := by
  constructor
  · intro key hkey
    simp only [CMD_REGEX, List.map_cons, List.map_nil, List.mem_cons,
      List.not_mem_nil, or_false] at hkey
    rcases hkey with rfl | rfl | rfl | rfl | rfl | rfl | rfl <;> rfl
  · intro hx
    have happ : setup_routing i2 (setup_routing i1 ([] : List (Regex × ℕ × String))) =
        (CMD_REGEX.map (fun kr => (kr.2, ((i1, kr.1) : ℕ × String)))) ++
          (CMD_REGEX.map (fun kr => (kr.2, ((i2, kr.1) : ℕ × String)))) := by
      simp [setup_routing]
    rw [happ, get_route_append] at hx
    cases h1 : get_route (CMD_REGEX.map (fun kr => (kr.2, ((i1, kr.1) : ℕ × String)))) s with
    | some x =>
        rw [h1] at hx
        simp only [Option.some.injEq] at hx
        rw [hx] at h1
        obtain ⟨r, hr⟩ := get_route_mem _ _ _ _ h1
        simp only [List.mem_map, Prod.mk.injEq] at hr
        obtain ⟨kr, _, _, hkr⟩ := hr
        rw [← hkr]
    | none =>
        rw [h1] at hx
        rw [get_route_retag_none CMD_REGEX
          (fun kr => ((i1, kr.1) : ℕ × String)) (fun kr => ((i2, kr.1) : ℕ × String)) s h1]
          at hx
        cases hx

/-- Witness for `shared_router_first_instance_wins`: with instances 1 and
2 registered in that order, the key "vod" occurs twice in the shared
routes, and resolving "help" returns the binding of instance 1. -/
theorem shared_router_first_instance_wins_witness :
    ((setup_routing 2 (setup_routing 1 ([] : List (Regex × ℕ × String)))).filter
      (fun e => e.2.2 == "vod")).length = 2 ∧
    (((1 : ℕ), "help") : ℕ × String).1 = 1 :=
  ⟨(shared_router_first_instance_wins 1 2 "help" (1, "help") []).1 "vod" (by decide),
   (shared_router_first_instance_wins 1 2 "help" (1, "help") []).2 (by decide)⟩
